import Mathlib

/-!
Verification of the TV-schedule ingestion core (`src/tv/tv_database.py`,
`src/tv/collector.py`, `src/tv/pocketbase_collector.py`) against its
specification.

The Python code is shallowly embedded: dictionaries become association
lists over a small Python-value type, the SQLite database becomes an
explicit record of table contents, and fallible code returns
`Except`/`Option`.  Every definition is translated from the source files;
doc comments name the Python function a definition embeds.
-/

set_option maxRecDepth 4000

namespace TV

/-- A Python value as it occurs in the raw program records handled by
`collector.py`: strings, ints, bools, lists of strings (the `genres` /
`actors` entries) and `None`.  `null` stands for Python `None` (and for
SQL `NULL` once stored). -/
inductive RawVal where
  | str (s : String)
  | int (n : Int)
  | bool (b : Bool)
  | strlist (l : List String)
  | null
  deriving DecidableEq, Repr

/-- Python truthiness (`bool(v)`) for the embedded values: the empty
string, `0`, `False` and `None` are falsy. -/
def RawVal.truthy : RawVal → Bool
  | .str s => s ≠ ""
  | .int n => n ≠ 0
  | .bool b => b
  | .strlist l => l ≠ []
  | .null => false

/-- Python `str(v)` on the embedded values. -/
def RawVal.pyStr : RawVal → String
  | .str s => s
  | .int n => toString n
  | .bool b => if b then "True" else "False"
  | .strlist l => "[" ++ String.intercalate ", " (l.map (fun s => "'" ++ s ++ "'")) ++ "]"
  | .null => "None"

/-- A raw program record: a Python dict with string keys, embedded as an
association list (first binding of a key wins, as in a dict there is at
most one). -/
abbrev RawProgram := List (String × RawVal)

/-- Python `program.get(k)`: `some v` when the key is present, `none` when absent. -/
def pyGet (p : RawProgram) (k : String) : Option RawVal :=
  (p.find? (fun kv => kv.1 = k)).map (·.2)

/-- Python `program.get(k, default)`. -/
def pyGetD (p : RawProgram) (k : String) (d : RawVal) : RawVal :=
  (pyGet p k).getD d

/-- Python `a or b`: `a` when truthy, otherwise `b`. -/
def pyOr (a b : RawVal) : RawVal :=
  if a.truthy then a else b

/-- Embeds `program.get(k1) or program.get(k2)` — the alias-resolution idiom of
`parse_and_store_programs` (a missing key contributes `None`). -/
def pyGetOr (p : RawProgram) (k1 k2 : String) : RawVal :=
  pyOr (pyGetD p k1 .null) (pyGetD p k2 .null)

/-! ### Calendar arithmetic

Executable civil-calendar conversions used to model
`datetime.fromtimestamp(...).isoformat()` and
`datetime.strptime(..., '%Y-%m-%d %H:%M:%S')`.  The embedding fixes the
UTC offset to zero (the Python functions use the process-local timezone;
no claim depends on the offset). -/

/-- Gregorian leap-year test. -/
def isLeap (y : Int) : Bool :=
  (y % 4 = 0 && y % 100 ≠ 0) || y % 400 = 0

/-- Days in a month of a given year. -/
def daysInMonth (y : Int) (m : Nat) : Nat :=
  if m = 2 then (if isLeap y then 29 else 28)
  else if m = 4 ∨ m = 6 ∨ m = 9 ∨ m = 11 then 30
  else 31

/-- Days since 1970-01-01 of a civil date (standard era-based algorithm,
floor division). -/
def daysFromCivil (y : Int) (m d : Nat) : Int :=
  let y' : Int := if m ≤ 2 then y - 1 else y
  let era : Int := Int.fdiv y' 400
  let yoe : Nat := (y' - era * 400).toNat
  let mp : Nat := if m > 2 then m - 3 else m + 9
  let doy : Nat := (153 * mp + 2) / 5 + d - 1
  let doe : Nat := yoe * 365 + yoe / 4 - yoe / 100 + doy
  era * 146097 + (doe : Int) - 719468

/-- Civil date of a day count since 1970-01-01 (inverse of
`daysFromCivil`). -/
def civilFromDays (z0 : Int) : Int × Nat × Nat :=
  let z : Int := z0 + 719468
  let era : Int := Int.fdiv z 146097
  let doe : Nat := (z - era * 146097).toNat
  let yoe : Nat := (doe - doe / 1460 + doe / 36524 - doe / 146096) / 365
  let y : Int := (yoe : Int) + era * 400
  let doy : Nat := doe - (365 * yoe + yoe / 4 - yoe / 100)
  let mp : Nat := (5 * doy + 2) / 153
  let d : Nat := doy - (153 * mp + 2) / 5 + 1
  let m : Nat := if mp < 10 then mp + 3 else mp - 9
  (if m ≤ 2 then y + 1 else y, m, d)

/-- Zero-pad a number to two digits. -/
def pad2 (n : Nat) : String :=
  if n < 10 then "0" ++ toString n else toString n

/-- Render a year (as printed by `isoformat`, four digits for the years
that occur here). -/
def pad4 (y : Int) : String :=
  let s := toString y
  if 0 ≤ y ∧ s.length < 4 then String.mk (List.replicate (4 - s.length) '0') ++ s
  else s

/-- Embeds `datetime.fromtimestamp(n).isoformat()` — unix seconds to an ISO 8601
string `YYYY-MM-DDTHH:MM:SS`, modelled at UTC offset zero. -/
def fromtimestampISO (n : Int) : String :=
  let days : Int := Int.fdiv n 86400
  let sod : Nat := (n - 86400 * days).toNat
  let c := civilFromDays days
  pad4 c.1 ++ "-" ++ pad2 c.2.1 ++ "-" ++ pad2 c.2.2 ++ "T" ++
    pad2 (sod / 3600) ++ ":" ++ pad2 (sod / 60 % 60) ++ ":" ++ pad2 (sod % 60)

/-- Numeric value of an ASCII digit. -/
def dval (c : Char) : Nat := c.toNat - 48

/-- Embeds `datetime.strptime(s, '%Y-%m-%d %H:%M:%S')` on its canonical
fixed-width form: returns the parsed (year, month, day, hour, minute,
second) or `none` (a `ValueError` in Python) when the string does not
match or a component is out of range. -/
def strptimeYmdHMS (s : String) : Option (Int × Nat × Nat × Nat × Nat × Nat) :=
  match s.data with
  | [y1, y2, y3, y4, '-', m1, m2, '-', d1, d2, ' ', h1, h2, ':', n1, n2, ':', s1, s2] =>
    if [y1, y2, y3, y4, m1, m2, d1, d2, h1, h2, n1, n2, s1, s2].all Char.isDigit then
      let y : Int := (1000 * dval y1 + 100 * dval y2 + 10 * dval y3 + dval y4 : Nat)
      let mo := 10 * dval m1 + dval m2
      let d := 10 * dval d1 + dval d2
      let h := 10 * dval h1 + dval h2
      let mi := 10 * dval n1 + dval n2
      let se := 10 * dval s1 + dval s2
      if 1 ≤ mo ∧ mo ≤ 12 ∧ 1 ≤ d ∧ d ≤ daysInMonth y mo ∧ h ≤ 23 ∧ mi ≤ 59 ∧ se ≤ 59 then
        some (y, mo, d, h, mi, se)
      else none
    else none
  | _ => none

/-- Seconds since the epoch of a parsed timestamp. -/
def epochOf (t : Int × Nat × Nat × Nat × Nat × Nat) : Int :=
  daysFromCivil t.1 t.2.1 t.2.2.1 * 86400 + t.2.2.2.1 * 3600 + t.2.2.2.2.1 * 60 + t.2.2.2.2.2

/-! ### `collector.py` field normalization -/

/-- Embeds `TelkussaCollector._parse_time` (collector.py:158-180).

The Python body is: falsy input (`None`, `''`, `0`) returns `None`; then
`if 'T' in str(time_str): return time_str`; then an `int` is converted
with `datetime.fromtimestamp(...).isoformat()`; anything else is
returned unchanged.  For a string input both the `'T'` branch and the
final `return time_str` return the input itself, and `str` of an `int`
never contains `'T'`, so the embedding collapses to: truthy ints convert,
every other truthy value passes through. -/
def parse_time (v : RawVal) : Option RawVal :=
  if ¬ v.truthy then Option.none
  else match v with
    | .int n => some (.str (fromtimestampISO n))
    | w => some w

/-- Sanitization step of `TelkussaCollector._get_program_id` (collector.py:148-156).

`.replace(' ', '_').replace(':', '')` on single-character patterns is
embedded character-wise: each space becomes an underscore, each colon is
removed. -/
def sanitizeKey (s : String) : String :=
  String.mk (((s.data.map (fun c => if c = ' ' then '_' else c)).filter (fun c => c ≠ ':')))

/-- Embeds `TelkussaCollector._get_program_id` (collector.py:148-156): prefer the
upstream `id` (via `str`); otherwise compose
`f"{channel_id}_{date_str}_{title}_{start}"` from the resolved title
(`title`, else `name`, else `'unknown'`) and start (`startTime`, else
`start`, else `''`) fields, then sanitize spaces and colons. -/
def get_program_id (p : RawProgram) (channel_id : Int) (date_str : String) : String :=
  match pyGet p "id" with
  | some v => v.pyStr
  | none =>
    let title := pyGetD p "title" (pyGetD p "name" (.str "unknown"))
    let start := pyGetD p "startTime" (pyGetD p "start" (.str ""))
    sanitizeKey (toString channel_id ++ "_" ++ date_str ++ "_" ++ title.pyStr ++ "_" ++ start.pyStr)

/-! ### The SQLite store (`tv_database.py`)

The schema of `TVDatabase.init_database` (tv_database.py:30-121), embedded
as explicit table contents.  `AUTOINCREMENT` surrogate keys are modelled
by `next_*` counters. -/

/-- A row of `channels` (tv_database.py:35-42).  `last_updated` is an
abstract clock tick standing for `CURRENT_TIMESTAMP`. -/
structure ChannelRow where
  id : Int
  name : String
  logo_url : RawVal
  category : RawVal
  active : Bool
  last_updated : Nat
  deriving DecidableEq, Repr

/-- A row of `programs` (tv_database.py:45-66).  Column values are kept as
the Python values bound into the `INSERT`; `RawVal.null` is SQL `NULL`.
The `NOT NULL` columns (`channel_id`, `title`, `start_time`, `end_time`)
are enforced by `insert_program`, not by the row type, because the
incoming dict may well carry `None` there. -/
structure ProgramRow where
  id : Nat
  external_id : RawVal
  channel_id : RawVal
  title : RawVal
  description : RawVal
  start_time : RawVal
  end_time : RawVal
  duration : RawVal
  category : RawVal
  is_series : RawVal
  season : RawVal
  episode : RawVal
  episode_title : RawVal
  age_rating : RawVal
  image_url : RawVal
  year : RawVal
  country : RawVal
  is_rerun : RawVal
  deriving DecidableEq, Repr

/-- A row of `genres` (tv_database.py:69-72): `name` is `UNIQUE NOT NULL`. -/
structure GenreRow where
  id : Nat
  name : String
  deriving DecidableEq, Repr

/-- A row of `people` (tv_database.py:83-86): `name` is `UNIQUE NOT NULL`. -/
structure PersonRow where
  id : Nat
  name : String
  deriving DecidableEq, Repr

/-- A row of `program_genres` (tv_database.py:74-80), primary key
`(program_id, genre_id)`. -/
structure ProgramGenreRow where
  program_id : Nat
  genre_id : Nat
  deriving DecidableEq, Repr

/-- A row of `program_people` (tv_database.py:88-95), primary key
`(program_id, person_id, role)`. -/
structure ProgramPersonRow where
  program_id : Nat
  person_id : Nat
  role : String
  deriving DecidableEq, Repr

/-- A row of `fetch_log` (tv_database.py:98-106). -/
structure FetchLogRow where
  channel_id : Int
  date : String
  success : Bool
  programs_count : Nat
  error_message : Option String
  deriving DecidableEq, Repr

/-- The whole database state. -/
structure DB where
  channels : List ChannelRow
  programs : List ProgramRow
  genres : List GenreRow
  people : List PersonRow
  program_genres : List ProgramGenreRow
  program_people : List ProgramPersonRow
  fetch_log : List FetchLogRow
  next_program_id : Nat
  next_genre_id : Nat
  next_person_id : Nat
  deriving DecidableEq, Repr

/-- The empty database produced by `init_database`. -/
def DB.empty : DB :=
  ⟨[], [], [], [], [], [], [], 1, 1, 1⟩

/-- Because `get_connection` (tv_database.py:16-28) opens each connection with
plain `sqlite3.connect` and never issues `PRAGMA foreign_keys = ON`;
SQLite leaves foreign-key enforcement (and hence the schema's
`ON DELETE CASCADE` clauses) disabled by default. -/
def pragma_foreign_keys : Bool := false

/-- The canonical program-data dict built by the collector and consumed by
`insert_program` (tv_database.py:147-164).  `genres` and `people` embed
the optional `'genres'` / `'people'` entries; an absent entry is the
empty list (the guards `if 'genres' in program_data and
program_data['genres']` treat a missing key and an empty list alike). -/
structure ProgramData where
  external_id : RawVal
  channel_id : RawVal
  title : RawVal
  description : RawVal
  start_time : RawVal
  end_time : RawVal
  duration : RawVal
  category : RawVal
  is_series : RawVal
  season : RawVal
  episode : RawVal
  episode_title : RawVal
  age_rating : RawVal
  image_url : RawVal
  year : RawVal
  country : RawVal
  is_rerun : RawVal
  genres : List String
  people : List (String × String)
  deriving DecidableEq, Repr

/-- Embeds `TVDatabase.upsert_channel` (tv_database.py:123-134):
`INSERT ... ON CONFLICT(id) DO UPDATE SET name, logo_url, category,
last_updated`.  The `active` column is not in the update list, and a new
row takes its schema default `1`. -/
def upsert_channel (db : DB) (channel_id : Int) (name : String)
    (logo_url category : RawVal) (now : Nat) : DB :=
  if db.channels.any (fun r => r.id = channel_id) then
    { db with channels := db.channels.map (fun r =>
        if r.id = channel_id then
          { r with name := name, logo_url := logo_url, category := category,
                   last_updated := now }
        else r) }
  else
    { db with channels := db.channels ++
        [⟨channel_id, name, logo_url, category, true, now⟩] }

/-- The `program_genres` link step of `_add_genre_to_program`
(tv_database.py:200-204): `INSERT OR IGNORE`, so an existing
`(program_id, genre_id)` pair is left alone. -/
def linkGenre (db : DB) (pid gid : Nat) : DB :=
  if db.program_genres.any (fun l => l.program_id = pid ∧ l.genre_id = gid) then db
  else { db with program_genres := db.program_genres ++ [⟨pid, gid⟩] }

/-- Embeds `TVDatabase._add_genre_to_program` (tv_database.py:187-204).  The
`INSERT OR IGNORE INTO genres` followed by `SELECT id FROM genres WHERE
name = ?` is embedded as find-or-create: an existing name keeps its row
and id, a new name is inserted with the next surrogate id.  Then the link
row is added with `INSERT OR IGNORE`. -/
def add_genre_to_program (db : DB) (program_id : Nat) (genre_name : String) : DB :=
  match db.genres.find? (fun g => g.name = genre_name) with
  | some g => linkGenre db program_id g.id
  | none =>
    let g : GenreRow := ⟨db.next_genre_id, genre_name⟩
    let db1 := { db with genres := db.genres ++ [g],
                         next_genre_id := db.next_genre_id + 1 }
    linkGenre db1 program_id g.id

/-- The `program_people` link step of `_add_person_to_program`
(tv_database.py:219-223): `INSERT OR IGNORE` on the
`(program_id, person_id, role)` primary key. -/
def linkPerson (db : DB) (pid per : Nat) (role : String) : DB :=
  if db.program_people.any
      (fun l => l.program_id = pid ∧ l.person_id = per ∧ l.role = role) then db
  else { db with program_people := db.program_people ++ [⟨pid, per, role⟩] }

/-- Embeds `TVDatabase._add_person_to_program` (tv_database.py:206-223), modelled
like `add_genre_to_program`. -/
def add_person_to_program (db : DB) (program_id : Nat) (person_name role : String) : DB :=
  match db.people.find? (fun g => g.name = person_name) with
  | some g => linkPerson db program_id g.id role
  | none =>
    let g : PersonRow := ⟨db.next_person_id, person_name⟩
    let db1 := { db with people := db.people ++ [g],
                         next_person_id := db.next_person_id + 1 }
    linkPerson db1 program_id g.id role

/-- The fact-row `INSERT INTO programs` of `insert_program` raises
`sqlite3.IntegrityError` when a `NOT NULL` column (`channel_id`, `title`,
`start_time`, `end_time`) is bound to `None`, or when a non-`NULL`
`external_id` equals one already stored (`external_id TEXT UNIQUE`;
SQLite treats `NULL`s as distinct for `UNIQUE`). -/
def factInsertViolation (db : DB) (pd : ProgramData) : Bool :=
  pd.channel_id = .null ∨ pd.title = .null ∨ pd.start_time = .null ∨ pd.end_time = .null ∨
    (pd.external_id ≠ .null ∧ db.programs.any (fun r => r.external_id = pd.external_id))

/-- Embeds `TVDatabase.insert_program` (tv_database.py:136-185): insert the fact
row, then link genres and people; `sqlite3.IntegrityError` is caught and
turned into `False` ("already exists").  The genre/person statements are
all `INSERT OR IGNORE`, so the only `IntegrityError` can come from the
fact-row insert, which happens before any link is written. -/
def insert_program (db : DB) (pd : ProgramData) : DB × Bool :=
  if factInsertViolation db pd then (db, false)
  else
    let row : ProgramRow :=
      ⟨db.next_program_id, pd.external_id, pd.channel_id, pd.title, pd.description,
       pd.start_time, pd.end_time, pd.duration, pd.category, pd.is_series, pd.season,
       pd.episode, pd.episode_title, pd.age_rating, pd.image_url, pd.year, pd.country,
       pd.is_rerun⟩
    let db1 := { db with programs := db.programs ++ [row],
                         next_program_id := db.next_program_id + 1 }
    let db2 := pd.genres.foldl (fun d g => add_genre_to_program d row.id g) db1
    let db3 := pd.people.foldl (fun d p => add_person_to_program d row.id p.1 p.2) db2
    (db3, true)

/-- Embeds `TVDatabase.log_fetch` (tv_database.py:225-231): append one audit row. -/
def log_fetch (db : DB) (channel_id : Int) (date : String) (success : Bool)
    (programs_count : Nat) (error_msg : Option String) : DB :=
  { db with fetch_log := db.fetch_log ++
      [⟨channel_id, date, success, programs_count, error_msg⟩] }

/-! ### Retention purge (`tv_database.py:377-386`) -/

/-- A Python exception surfacing from the embedded code. -/
inductive PyError where
  | nameError (name : String)
  | attributeError (name : String)
  deriving DecidableEq, Repr

/-- The names bound at module level in `tv_database.py`: its import lines
are `import sqlite3`, `from datetime import datetime`,
`from pathlib import Path` and `from contextlib import contextmanager`
(tv_database.py:6-9).  `timedelta` is not among them. -/
def tv_database_globals : List String :=
  ["sqlite3", "datetime", "Path", "contextmanager", "TVDatabase"]

/-- Lexicographic order on character lists. -/
def charsLt : List Char → List Char → Bool
  | [], [] => false
  | [], _ :: _ => true
  | _ :: _, [] => false
  | a :: as, b :: bs => if a < b then true else if a = b then charsLt as bs else false

/-- SQLite's default BINARY text comparison `a < b`, character-wise
lexicographic (for the ASCII date strings compared here this coincides
with the byte order SQLite uses). -/
def sqlTextLt (a b : String) : Bool := charsLt a.data b.data

/-- SQLite's `date()` applied to a stored `start_time` text value:
the leading `YYYY-MM-DD` of an ISO string (non-text values yield `NULL`,
embedded as `none`, which compares as not-less-than any text). -/
def sqlDateOf : RawVal → Option String
  | .str s => some (s.take 10)
  | _ => none

/-- The body of `DELETE FROM programs WHERE date(start_time) < ?`
followed by `cursor.rowcount` (tv_database.py:381-386): removes the
matching program rows and reports how many.  Because
`pragma_foreign_keys` is off, the `ON DELETE CASCADE` clauses of
`program_genres` / `program_people` are not enforced and the join rows
stay behind. -/
def delete_programs_before (db : DB) (cutoff : String) : DB × Nat :=
  let gone := db.programs.filter (fun r =>
    match sqlDateOf r.start_time with
    | some d => sqlTextLt d cutoff
    | none => false)
  let kept := db.programs.filter (fun r =>
    ! (match sqlDateOf r.start_time with
       | some d => sqlTextLt d cutoff
       | none => false))
  let goneIds := gone.map (·.id)
  ({ db with
      programs := kept,
      program_genres :=
        if pragma_foreign_keys then
          db.program_genres.filter (fun l => l.program_id ∉ goneIds)
        else db.program_genres,
      program_people :=
        if pragma_foreign_keys then
          db.program_people.filter (fun l => l.program_id ∉ goneIds)
        else db.program_people },
   gone.length)

/-- Embeds `TVDatabase.cleanup_old_programs` (tv_database.py:377-386).  Its first
statement evaluates `datetime.now().date() - timedelta(days=days_to_keep)`,
and `timedelta` is resolved against the module globals: `tv_database.py`
imports only `datetime` from the `datetime` module, so the name lookup
fails with `NameError` before anything is deleted.  `cutoff` is the
`YYYY-MM-DD` string the subtraction would have produced. -/
def cleanup_old_programs (db : DB) (cutoff : String) : Except PyError (DB × Nat) :=
  if "timedelta" ∈ tv_database_globals then
    .ok (delete_programs_before db cutoff)
  else
    .error (.nameError "timedelta")

/-! ### The fetcher (`collector.py:53-76`) -/

/-- One upstream JSON document, restricted to the shapes
`parse_and_store_programs` inspects: a JSON array of program records, or
a JSON object whose entries may bind `'programs'` to an array of records
(other entries only contribute to the dict's truthiness). -/
inductive ApiData where
  | jlist (items : List RawProgram)
  | jobj (entries : List (String × List RawProgram))
  deriving DecidableEq, Repr

/-- Python truthiness of a decoded JSON document: an empty list or empty
object is falsy. -/
def ApiData.truthy : ApiData → Bool
  | .jlist items => items ≠ []
  | .jobj entries => entries ≠ []

/-- The outcome of one `self.session.get(...)` attempt: `some` decoded
JSON, or `none` for a `requests.RequestException` (network/HTTP error). -/
abbrev AttemptOracle := Nat → Option ApiData

/-- The `for attempt in range(retry_count)` loop of
`TelkussaCollector.fetch_channel_data` (collector.py:57-76), over the
remaining attempt indices.  Returns the result (`none` models the
`return None` failure signal — the exception is caught, never re-raised),
the number of attempts performed, and the backoff sleeps as
`(attempt index, seconds)` pairs: a failed attempt with
`attempt < retry_count - 1` sleeps `(attempt + 1) * 2` seconds and
continues; the last attempt's failure returns `None` immediately. -/
def fetchGo (oracle : AttemptOracle) (retry_count : Nat) :
    List Nat → Option ApiData × Nat × List (Nat × Nat)
  | [] => (none, 0, [])
  | attempt :: rest =>
    match oracle attempt with
    | some j => (some j, 1, [])
    | none =>
      if attempt < retry_count - 1 then
        let r := fetchGo oracle retry_count rest
        (r.1, r.2.1 + 1, (attempt, (attempt + 1) * 2) :: r.2.2)
      else (none, 1, [])

/-- Embeds `TelkussaCollector.fetch_channel_data` (collector.py:53-76) with the
HTTP attempts abstracted into an oracle. -/
def fetch_channel_data (oracle : AttemptOracle) (retry_count : Nat) :
    Option ApiData × Nat × List (Nat × Nat) :=
  fetchGo oracle retry_count (List.range retry_count)

/-- The default `retry_count` of `fetch_channel_data`. -/
def default_retry_count : Nat := 3

/-! ### The normalizer (`collector.py:78-146`) -/

/-- The `program_data` dict built by
`TelkussaCollector.parse_and_store_programs` (collector.py:100-133) for
one raw record: ordered field-alias resolution, `_parse_time` on the
timestamps (its `None` becoming `null`), upstream-trusted
`duration`/`length`, and the genre/people extraction (`genres`, else a
singleton `genre`; `actors` with role `actor` plus `director` with role
`director`). -/
def build_program_data (p : RawProgram) (channel_id : Int) (date_str : String) :
    ProgramData where
  external_id := .str (get_program_id p channel_id date_str)
  channel_id := .int channel_id
  title := pyGetOr p "title" "name"
  description := pyGetOr p "description" "desc"
  start_time := (parse_time (pyGetOr p "startTime" "start")).getD .null
  end_time := (parse_time (pyGetOr p "endTime" "end")).getD .null
  duration := pyGetOr p "duration" "length"
  category := pyGetOr p "category" "type"
  is_series := pyOr (pyGetD p "series" (.bool false)) (pyGetD p "isSeries" (.bool false))
  season := pyGetD p "season" .null
  episode := pyGetD p "episode" .null
  episode_title := pyGetOr p "episodeTitle" "episodeName"
  age_rating := pyGetOr p "ageRating" "rating"
  image_url := pyGetOr p "image" "imageUrl"
  year := pyGetD p "year" .null
  country := pyGetD p "country" .null
  is_rerun := pyOr (pyGetD p "rerun" (.bool false)) (pyGetD p "isRerun" (.bool false))
  genres :=
    match pyGet p "genres" with
    | some (.strlist gs) =>
      if gs ≠ [] then gs
      else match pyGet p "genre" with
           | some (.str g) => [g]
           | _ => []
    | _ =>
      match pyGet p "genre" with
      | some (.str g) => [g]
      | _ => []
  people :=
    (match pyGet p "actors" with
     | some (.strlist as) => as.map (fun a => (a, "actor"))
     | _ => []) ++
    (match pyGet p "director" with
     | some (.str d) => [(d, "director")]
     | _ => [])

/-- The per-program storage loop of `parse_and_store_programs`
(collector.py:96-146): each record is normalized and handed to
`insert_program`; `stored_count` counts the `True` returns. -/
def storeLoop (db : DB) (channel_id : Int) (date_str : String)
    (ps : List RawProgram) : DB × Nat :=
  ps.foldl
    (fun acc p =>
      let r := insert_program acc.1 (build_program_data p channel_id date_str)
      (r.1, acc.2 + (if r.2 then 1 else 0)))
    (db, 0)

/-- Embeds `TelkussaCollector.parse_and_store_programs` (collector.py:78-146).
A falsy `data` returns `0` at once.  Otherwise the method evaluates
`data.get('programs', [])`: on a JSON *list* this raises
`AttributeError` (`list` has no attribute `get`), so the
`isinstance(data, list)` fallback two lines later is unreachable; on a
JSON object the `'programs'` entry (default `[]`) is stored. -/
def parse_and_store_programs (db : DB) (channel_id : Int) (data : ApiData)
    (date_str : String) : Except PyError (DB × Nat) :=
  if ¬ data.truthy then .ok (db, 0)
  else
    match data with
    | .jlist _ => .error (.attributeError "get")
    | .jobj entries =>
      let programs := ((entries.find? (fun kv => kv.1 = "programs")).map (·.2)).getD []
      .ok (storeLoop db channel_id date_str programs)

/-- The body of the per-channel loop of
`TelkussaCollector.collect_daily_data` (collector.py:200-218) for one
`(channel, date)` unit of work, taking the value `fetch_channel_data`
returned: `if data:` routes every falsy value — the `None` failure signal
but also an empty list or empty object — to
`log_fetch(..., False, 0, "Fetch failed")`; a truthy value is parsed,
stored and logged with `success=True` and the stored count. -/
def process_unit (db : DB) (channel_id : Int) (date_str : String)
    (data : Option ApiData) : Except PyError DB :=
  match data with
  | some d =>
    if d.truthy then
      match parse_and_store_programs db channel_id d date_str with
      | .ok (db1, count) => .ok (log_fetch db1 channel_id date_str true count none)
      | .error e => .error e
    else .ok (log_fetch db channel_id date_str false 0 (some "Fetch failed"))
  | none => .ok (log_fetch db channel_id date_str false 0 (some "Fetch failed"))

/-! ### The PocketBase collector's duration derivation
(`pocketbase_collector.py:190-196`) -/

/-- The duration computation of `TelkussaPocketBaseCollector.store_program`
(pocketbase_collector.py:190-196): parse `start_time` and `end_time` with
`strptime(..., '%Y-%m-%d %H:%M:%S')` and take
`int((end_dt - start_dt).total_seconds() / 60)` (`int()` truncates toward
zero, hence `Int.tdiv`); a `ValueError` from either parse yields `0`. -/
def pb_calculate_duration (start_time end_time : String) : Int :=
  match strptimeYmdHMS start_time, strptimeYmdHMS end_time with
  | some st, some en => Int.tdiv (epochOf en - epochOf st) 60
  | _, _ => 0

/-! ## Theorems -/

/-- Helper: `fetchGo` performs at most one attempt per loop index. -/
lemma fetchGo_attempts_le (oracle : AttemptOracle) (rc : Nat) :
    ∀ l : List Nat, (fetchGo oracle rc l).2.1 ≤ l.length := by
  intro l
  induction l with
  | nil => simp [fetchGo]
  | cons a rest ih =>
    cases hO : oracle a with
    | some j => simp [fetchGo, hO]
    | none =>
      by_cases h : a < rc - 1
      · simp only [fetchGo, hO, h, if_true, List.length_cons]
        omega
      · simp [fetchGo, hO, h]

/-- Helper: every backoff sleep of `fetchGo` waits `(attempt + 1) * 2`
seconds, and only a non-final attempt (index `< retry_count - 1`) sleeps. -/
lemma fetchGo_sleeps (oracle : AttemptOracle) (rc : Nat) :
    ∀ l : List Nat, ∀ p ∈ (fetchGo oracle rc l).2.2,
      p.2 = (p.1 + 1) * 2 ∧ p.1 + 1 < rc := by
  intro l
  induction l with
  | nil => simp [fetchGo]
  | cons a rest ih =>
    intro p hp
    cases hO : oracle a with
    | some j => simp [fetchGo, hO] at hp
    | none =>
      by_cases h : a < rc - 1
      · simp only [fetchGo, hO, h, if_true, List.mem_cons] at hp
        rcases hp with hp | hp
        · subst hp
          exact ⟨rfl, by omega⟩
        · exact ih p hp
      · simp [fetchGo, hO, h] at hp

/-- Helper: when every attempt fails, `fetchGo` returns the `None`
failure signal. -/
lemma fetchGo_all_fail (oracle : AttemptOracle) (rc : Nat)
    (hfail : ∀ k, oracle k = none) :
    ∀ l : List Nat, (fetchGo oracle rc l).1 = none := by
  intro l
  induction l with
  | nil => simp [fetchGo]
  | cons a rest ih =>
    by_cases h : a < rc - 1
    · simp [fetchGo, hfail a, h, ih]
    · simp [fetchGo, hfail a, h]

/-- Claim C5: `fetch_channel_data` attempts the GET at most `retry_count`
times (default 3); each backoff sleep after the `k`-th failed attempt
(1-indexed `k = attempt + 1 < retry_count`) waits `k * 2` seconds; and
when all attempts fail it returns the `None` failure signal instead of
raising (the `RequestException` is caught inside the loop). -/
theorem fetch_channel_data_retries (oracle : AttemptOracle) (retry_count : Nat) :
    default_retry_count = 3 ∧
    (fetch_channel_data oracle retry_count).2.1 ≤ retry_count ∧
    (∀ p ∈ (fetch_channel_data oracle retry_count).2.2,
       p.2 = (p.1 + 1) * 2 ∧ p.1 + 1 < retry_count) ∧
    ((∀ k, oracle k = none) → (fetch_channel_data oracle retry_count).1 = none) := by
  refine ⟨rfl, ?_, ?_, ?_⟩
  · simpa using fetchGo_attempts_le oracle retry_count (List.range retry_count)
  · exact fetchGo_sleeps oracle retry_count (List.range retry_count)
  · intro hfail
    exact fetchGo_all_fail oracle retry_count hfail (List.range retry_count)

/-- Witness for C5: the always-failing oracle at the default retry count
makes exactly three attempts, sleeps 2 s then 4 s, and returns `none`. -/
theorem fetch_channel_data_retries_witness :
    (fetch_channel_data (fun _ => none) 3).2.1 ≤ 3 ∧
    ((0, 2) ∈ (fetch_channel_data (fun _ => none) 3).2.2 ∧ 2 = (0 + 1) * 2 ∧ 0 + 1 < 3) ∧
    (fetch_channel_data (fun _ => none) 3).1 = none := by
  have h := fetch_channel_data_retries (fun _ => none) 3
  refine ⟨h.2.1, ⟨by decide, ?_⟩, h.2.2.2 (fun k => rfl)⟩
  exact h.2.2.1 (0, 2) (by decide)

/-- The spec's retention example: programs starting `2025-01-01` (id 1)
and `2025-03-01` (id 2), each with genre and person links. -/
def rowJan : ProgramRow :=
  ⟨1, .str "p1", .int 1, .str "Old show", .null, .str "2025-01-01T20:00:00",
   .str "2025-01-01T21:00:00", .null, .null, .bool false, .null, .null, .null,
   .null, .null, .null, .null, .bool false⟩

/-- The kept March program of the retention example. -/
def rowMar : ProgramRow :=
  ⟨2, .str "p2", .int 1, .str "New show", .null, .str "2025-03-01T20:00:00",
   .str "2025-03-01T21:00:00", .null, .null, .bool false, .null, .null, .null,
   .null, .null, .null, .null, .bool false⟩

/-- The retention-example database. -/
def retentionDB : DB :=
  ⟨[], [rowJan, rowMar], [⟨1, "Drama"⟩], [⟨1, "Some Actor"⟩],
   [⟨1, 1⟩, ⟨2, 1⟩], [⟨1, 1, "actor"⟩], [], 3, 2, 2⟩

/-- Claim C2 (code bug): the retention purge never runs.  `tv_database.py`
imports only `datetime` from the `datetime` module, so
`cleanup_old_programs` hits `NameError: name 'timedelta' is not defined`
on its first statement, for every database and cutoff, deleting nothing
(the module's own `__main__` self-test also uses `timedelta` and crashes
the same way).  Moreover, even the underlying `DELETE` — run on the
spec's example with cutoff `2025-02-13` (30 days before `2025-03-15`) —
would remove only the January fact row while leaving its genre and
person join rows behind, because no connection ever enables
`PRAGMA foreign_keys` and the schema's `ON DELETE CASCADE` is therefore
not enforced. -/
theorem cleanup_old_programs_nameError :
    (∀ (db : DB) (cutoff : String),
       cleanup_old_programs db cutoff = .error (.nameError "timedelta")) ∧
    delete_programs_before retentionDB "2025-02-13" =
      ({ retentionDB with programs := [rowMar] }, 1) ∧
    (delete_programs_before retentionDB "2025-02-13").1.program_genres =
      [⟨1, 1⟩, ⟨2, 1⟩] ∧
    (delete_programs_before retentionDB "2025-02-13").1.program_people =
      [⟨1, 1, "actor"⟩] := by
  refine ⟨fun db cutoff => rfl, ?_, rfl, rfl⟩
  decide

/-- The concrete raw record refuting C3 for `collector.py`: upstream
supplies `duration = 999` together with start `2025-01-01T20:00:00` and
end `2025-01-01T21:30:00` (90 minutes apart). -/
def recMovie : RawProgram :=
  [("title", .str "Movie"), ("startTime", .str "2025-01-01T20:00:00"),
   ("endTime", .str "2025-01-01T21:30:00"), ("duration", .int 999)]

/-- Claim C3 counterexample: `TelkussaCollector.parse_and_store_programs`
takes the stored duration from the upstream `duration`/`length` field.
For `recMovie` the normalized record and the stored fact row carry
duration `999`, not the 90 minutes separating the start and end
timestamps (which is what `pb_calculate_duration` of the PocketBase
collector would derive). -/
theorem collector_duration_from_upstream :
    (build_program_data recMovie 1 "20250101").duration = RawVal.int 999 ∧
    (insert_program DB.empty (build_program_data recMovie 1 "20250101")).1.programs.map
      (fun r => r.duration) = [RawVal.int 999] ∧
    pb_calculate_duration "2025-01-01 20:00:00" "2025-01-01 21:30:00" = 90 ∧
    RawVal.int 999 ≠ RawVal.int 90 := by
  refine ⟨rfl, rfl, by decide, by decide⟩

/-- Claim C3 as amended: duration derivation is the PocketBase
collector's behavior.  `store_program` derives the stored duration from
the start and end timestamps whenever both parse
(`int((end - start).total_seconds() / 60)`), yields `0` when either is
unparseable instead of failing the insert, and gives 90 minutes on the
spec's example; the SQLite collector instead copies the upstream
`duration`/`length` field verbatim. -/
theorem duration_derivation_amended :
    (∀ s e ps pe, strptimeYmdHMS s = some ps → strptimeYmdHMS e = some pe →
       pb_calculate_duration s e = Int.tdiv (epochOf pe - epochOf ps) 60) ∧
    (∀ s e, strptimeYmdHMS s = none ∨ strptimeYmdHMS e = none →
       pb_calculate_duration s e = 0) ∧
    pb_calculate_duration "2025-01-01 20:00:00" "2025-01-01 21:30:00" = 90 ∧
    (∀ p cid d, (build_program_data p cid d).duration = pyGetOr p "duration" "length") := by
  refine ⟨?_, ?_, by decide, fun p cid d => rfl⟩
  · intro s e ps pe hs he
    simp [pb_calculate_duration, hs, he]
  · intro s e h
    rcases h with h | h
    · simp [pb_calculate_duration, h]
    · cases hs : strptimeYmdHMS s <;> simp [pb_calculate_duration, hs, h]

/-- Witness for the amended C3: both branches of the duration computation
at concrete inputs. -/
theorem duration_derivation_amended_witness :
    pb_calculate_duration "2025-01-01 20:00:00" "2025-01-01 21:30:00" =
      Int.tdiv (epochOf (2025, 1, 1, 21, 30, 0) - epochOf (2025, 1, 1, 20, 0, 0)) 60 ∧
    pb_calculate_duration "invalid" "2025-01-01 21:30:00" = 0 ∧
    (build_program_data recMovie 1 "20250101").duration =
      pyGetOr recMovie "duration" "length" := by
  refine ⟨duration_derivation_amended.1 _ _ _ _ rfl rfl, ?_, duration_derivation_amended.2.2.2 recMovie 1 "20250101"⟩
  exact duration_derivation_amended.2.1 "invalid" _ (Or.inl rfl)

/-- Claim C8 counterexample: `_parse_time` does not convert *every*
unix-integer input.  The integer `0` is falsy in Python, so the guard
`if not time_str` returns `None` for it instead of the epoch timestamp
`1970-01-01T00:00:00` that absolute-time conversion would give. -/
theorem parse_time_zero_counterexample :
    parse_time (RawVal.int 0) = Option.none ∧
    fromtimestampISO 0 = "1970-01-01T00:00:00" ∧
    (Option.none : Option RawVal) ≠ some (.str (fromtimestampISO 0)) := by
  refine ⟨rfl, by decide, by decide⟩

/-- Claim C8 as amended: `_parse_time` maps every non-empty string — in
particular every ISO-format timestamp — to itself unchanged, maps every
*nonzero* unix-integer input to the corresponding absolute time in ISO
format, and maps the falsy inputs `None`, the empty string and the
integer `0` to `None`. -/
theorem parse_time_normalization :
    (∀ s : String, s ≠ "" → parse_time (.str s) = some (.str s)) ∧
    (∀ n : Int, n ≠ 0 → parse_time (.int n) = some (.str (fromtimestampISO n))) ∧
    parse_time .null = Option.none ∧
    parse_time (.str "") = Option.none ∧
    parse_time (.int 0) = Option.none := by
  refine ⟨?_, ?_, rfl, rfl, rfl⟩
  · intro s h
    simp [parse_time, RawVal.truthy, h]
  · intro n h
    simp [parse_time, RawVal.truthy, h]

/-- Witness for the amended C8 at the spec's field shapes: an ISO string
passes through, a unix integer converts. -/
theorem parse_time_normalization_witness :
    parse_time (.str "2025-01-01T20:00:00") = some (.str "2025-01-01T20:00:00") ∧
    parse_time (.int 1734364800) = some (.str (fromtimestampISO 1734364800)) := by
  exact ⟨parse_time_normalization.1 _ (by decide),
         parse_time_normalization.2.1 1734364800 (by decide)⟩

/-- Claim C4 counterexample: a successful fetch that returns the empty
JSON list — zero programs scheduled, not a fetch failure — is treated
exactly like the `None` failure signal: `if data:` is false for both, so
both log `success=false, programs_count=0, "Fetch failed"`. -/
theorem zero_programs_conflated_with_failure :
    process_unit DB.empty 13 "20250615" (some (ApiData.jlist [])) =
      .ok { DB.empty with fetch_log := [⟨13, "20250615", false, 0, some "Fetch failed"⟩] } ∧
    process_unit DB.empty 13 "20250615" none =
      .ok { DB.empty with fetch_log := [⟨13, "20250615", false, 0, some "Fetch failed"⟩] } := by
  exact ⟨rfl, rfl⟩

/-- Claim C4 as amended: when the Fetcher returns the failure signal, the
Normalizer/Store is never invoked — the only change is exactly one
`fetch_log` row with `success=false, programs_count=0` — and the unit of
work completes without raising; a successful fetch whose payload is a
truthy object with an empty `programs` list is logged as
`success=true, programs_count=0`; but a successful fetch whose payload is
falsy (the empty list or empty object) is conflated with the failure
outcome by the `if data:` test. -/
theorem process_unit_outcomes :
    (∀ (db : DB) (cid : Int) (d : String),
       process_unit db cid d none =
         .ok (log_fetch db cid d false 0 (some "Fetch failed"))) ∧
    (∀ (db : DB) (cid : Int) (d : String) (s : Bool) (c : Nat) (m : Option String),
       (log_fetch db cid d s c m).programs = db.programs ∧
       (log_fetch db cid d s c m).program_genres = db.program_genres ∧
       (log_fetch db cid d s c m).program_people = db.program_people ∧
       (log_fetch db cid d s c m).fetch_log = db.fetch_log ++ [⟨cid, d, s, c, m⟩]) ∧
    (∀ (db : DB) (cid : Int) (d : String) (entries : List (String × List RawProgram)),
       entries ≠ [] → entries.find? (fun kv => kv.1 = "programs") = some ("programs", []) →
       process_unit db cid d (some (.jobj entries)) =
         .ok (log_fetch db cid d true 0 none)) ∧
    (∀ (db : DB) (cid : Int) (d : String) (data : ApiData), data.truthy = false →
       process_unit db cid d (some data) = process_unit db cid d none) := by
  refine ⟨fun db cid d => rfl, fun db cid d s c m => ⟨rfl, rfl, rfl, rfl⟩, ?_, ?_⟩

  · intro db cid d entries hne hfind
    have ht : ApiData.truthy (.jobj entries) = true := by
      simpa [ApiData.truthy] using hne
    simp [process_unit, ht, parse_and_store_programs, hfind, storeLoop]
  · intro db cid d data hfalsy
    simp [process_unit, hfalsy]

/-- Witness for the amended C4 at the spec's failure scenario (channel 13,
date `20250615`). -/
theorem process_unit_outcomes_witness :
    process_unit DB.empty 13 "20250615" none =
      .ok (log_fetch DB.empty 13 "20250615" false 0 (some "Fetch failed")) ∧
    process_unit DB.empty 13 "20250615" (some (.jobj [("programs", [])])) =
      .ok (log_fetch DB.empty 13 "20250615" true 0 none) ∧
    process_unit DB.empty 13 "20250615" (some (.jobj [])) =
      process_unit DB.empty 13 "20250615" none := by
  refine ⟨process_unit_outcomes.1 DB.empty 13 "20250615", ?_, ?_⟩
  · exact process_unit_outcomes.2.2.1 DB.empty 13 "20250615" [("programs", [])]
      (by decide) (by decide)
  · exact process_unit_outcomes.2.2.2 DB.empty 13 "20250615" (.jobj []) (by decide)

/-- Helper: characters of a sanitized key — no space and no colon
survive `.replace(' ', '_').replace(':', '')`. -/
lemma sanitizeKey_chars (s : String) :
    ' ' ∉ (sanitizeKey s).data ∧ ':' ∉ (sanitizeKey s).data := by
  constructor
  · intro hmem
    simp only [sanitizeKey, String.data] at hmem
    rcases List.mem_filter.mp hmem with ⟨hmap, _⟩
    rcases List.mem_map.mp hmap with ⟨c, _, hc⟩
    by_cases h : c = ' ' <;> simp [h] at hc
  · intro hmem
    simp only [sanitizeKey, String.data] at hmem
    exact absurd (List.mem_filter.mp hmem).2 (by simp)

/-- The title resolved by `_get_program_id`:
`program.get('title', program.get('name', 'unknown'))`. -/
def resolvedTitle (p : RawProgram) : RawVal :=
  pyGetD p "title" (pyGetD p "name" (.str "unknown"))

/-- The start time resolved by `_get_program_id`:
`program.get('startTime', program.get('start', ''))`. -/
def resolvedStart (p : RawProgram) : RawVal :=
  pyGetD p "startTime" (pyGetD p "start" (.str ""))

/-- Claim C6: `_get_program_id` is a pure function of its inputs.  A
record carrying a native `id` field yields `str(id)`; otherwise the key
is the sanitized composite `f"{channel_id}_{date_str}_{title}_{start}"`
of channel ID, date string, resolved title and resolved start time, in
which no space or colon character remains; and any two records agreeing
on those resolved fields (both without a native `id`) get the identical
key, for every channel and date. -/
theorem get_program_id_deterministic :
    (∀ p (v : RawVal) (cid : Int) (d : String),
       pyGet p "id" = some v → get_program_id p cid d = v.pyStr) ∧
    (∀ p (cid : Int) (d : String), pyGet p "id" = none →
       get_program_id p cid d =
         sanitizeKey (toString cid ++ "_" ++ d ++ "_" ++ (resolvedTitle p).pyStr ++ "_" ++
           (resolvedStart p).pyStr)) ∧
    (∀ p (cid : Int) (d : String), pyGet p "id" = none →
       ' ' ∉ (get_program_id p cid d).data ∧ ':' ∉ (get_program_id p cid d).data) ∧
    (∀ p q (cid : Int) (d : String),
       pyGet p "id" = none → pyGet q "id" = none →
       resolvedTitle p = resolvedTitle q → resolvedStart p = resolvedStart q →
       get_program_id p cid d = get_program_id q cid d) := by
  have hkey : ∀ p (cid : Int) (d : String), pyGet p "id" = none →
      get_program_id p cid d =
        sanitizeKey (toString cid ++ "_" ++ d ++ "_" ++ (resolvedTitle p).pyStr ++ "_" ++
          (resolvedStart p).pyStr) := by
    intro p cid d h
    simp [get_program_id, h, resolvedTitle, resolvedStart]
  refine ⟨?_, hkey, ?_, ?_⟩
  · intro p v cid d h
    simp [get_program_id, h]
  · intro p cid d h
    rw [hkey p cid d h]
    exact sanitizeKey_chars _
  · intro p q cid d hp hq ht hs
    rw [hkey p cid d hp, hkey q cid d hq, ht, hs]

/-- Witness for C6: a record with a native id, and two distinct records
without one that agree on the resolved fields. -/
theorem get_program_id_deterministic_witness :
    get_program_id [("id", .int 42)] 13 "20250615" = "42" ∧
    get_program_id [("title", .str "News at Ten"), ("startTime", .str "20:00")] 13 "20250615" =
      sanitizeKey (toString (13 : Int) ++ "_" ++ "20250615" ++ "_" ++
        (resolvedTitle [("title", .str "News at Ten"), ("startTime", .str "20:00")]).pyStr ++
        "_" ++ (resolvedStart [("title", .str "News at Ten"), ("startTime", .str "20:00")]).pyStr) ∧
    ' ' ∉ (get_program_id [("title", .str "News at Ten"), ("startTime", .str "20:00")] 13 "20250615").data ∧
    get_program_id [("title", .str "News at Ten"), ("startTime", .str "20:00")] 13 "20250615" =
      get_program_id [("desc", .str "late news"), ("title", .str "News at Ten"), ("startTime", .str "20:00")] 13 "20250615" := by
  refine ⟨get_program_id_deterministic.1 _ (.int 42) 13 "20250615" (by decide),
          get_program_id_deterministic.2.1 _ 13 "20250615" (by decide),
          (get_program_id_deterministic.2.2.1 _ 13 "20250615" (by decide)).1,
          get_program_id_deterministic.2.2.2 _ _ 13 "20250615" (by decide) (by decide)
            (by decide) (by decide)⟩

/-- Claim C9: `upsert_channel` never shrinks the channel table; an
existing row with the conflicting id is replaced by a copy in which only
`name`, `logo_url`, `category` and `last_updated` change — in particular
its `active` flag keeps its prior value — every other row is kept
verbatim, and all non-channel tables are untouched. -/
theorem upsert_channel_frame (db : DB) (cid : Int) (nm : String)
    (lg cat : RawVal) (now : Nat) :
    db.channels.length ≤ (upsert_channel db cid nm lg cat now).channels.length ∧
    (∀ r ∈ db.channels,
       (r.id ≠ cid → r ∈ (upsert_channel db cid nm lg cat now).channels) ∧
       (r.id = cid →
         ({ r with name := nm, logo_url := lg, category := cat, last_updated := now } :
           ChannelRow) ∈ (upsert_channel db cid nm lg cat now).channels)) ∧
    (∀ r ∈ db.channels, ∃ r' ∈ (upsert_channel db cid nm lg cat now).channels,
       r'.id = r.id ∧ r'.active = r.active) ∧
    (upsert_channel db cid nm lg cat now).programs = db.programs ∧
    (upsert_channel db cid nm lg cat now).genres = db.genres ∧
    (upsert_channel db cid nm lg cat now).people = db.people ∧
    (upsert_channel db cid nm lg cat now).program_genres = db.program_genres ∧
    (upsert_channel db cid nm lg cat now).program_people = db.program_people ∧
    (upsert_channel db cid nm lg cat now).fetch_log = db.fetch_log := by
  by_cases h : db.channels.any (fun r => r.id = cid)
  · refine ⟨?_, ?_, ?_, ?_⟩
    · simp [upsert_channel, h]
    · intro r hr
      refine ⟨fun hne => ?_, fun hid => ?_⟩
      · simp only [upsert_channel, h, if_true]
        exact List.mem_map.mpr ⟨r, hr, by simp [hne]⟩
      · simp only [upsert_channel, h, if_true]
        exact List.mem_map.mpr ⟨r, hr, by simp [hid]⟩
    · intro r hr
      by_cases hid : r.id = cid
      · refine ⟨{ r with name := nm, logo_url := lg, category := cat, last_updated := now },
          ?_, rfl, rfl⟩
        simp only [upsert_channel, h, if_true]
        exact List.mem_map.mpr ⟨r, hr, by simp [hid]⟩
      · refine ⟨r, ?_, rfl, rfl⟩
        simp only [upsert_channel, h, if_true]
        exact List.mem_map.mpr ⟨r, hr, by simp [hid]⟩
    · simp [upsert_channel, h]
  · have hall : ∀ r ∈ db.channels, ¬ r.id = cid := by simpa using h
    refine ⟨?_, ?_, ?_, ?_⟩
    · simp [upsert_channel, h]
    · intro r hr
      refine ⟨fun _ => ?_, fun hid => absurd hid (hall r hr)⟩
      simp only [upsert_channel, h, if_false]
      exact List.mem_append_left _ hr
    · intro r hr
      refine ⟨r, ?_, rfl, rfl⟩
      simp only [upsert_channel, h, if_false]
      exact List.mem_append_left _ hr
    · simp [upsert_channel, h]

/-- The deactivated channel used to witness C9. -/
def staleChannel : ChannelRow := ⟨1, "Old Name", .null, .null, false, 0⟩

/-- Witness for C9: re-upserting a deactivated channel updates its name
but leaves `active = false`. -/
theorem upsert_channel_frame_witness :
    ({ staleChannel with
        name := "YLE TV1",
        logo_url := .str "logo",
        category := .str "public",
        last_updated := 7 } : ChannelRow) ∈
      (upsert_channel { DB.empty with channels := [staleChannel] } 1 "YLE TV1"
        (.str "logo") (.str "public") 7).channels ∧
    (∃ r' ∈ (upsert_channel { DB.empty with channels := [staleChannel] } 1 "YLE TV1"
        (.str "logo") (.str "public") 7).channels,
       r'.id = staleChannel.id ∧ r'.active = staleChannel.active) := by
  have h := upsert_channel_frame { DB.empty with channels := [staleChannel] } 1 "YLE TV1"
    (.str "logo") (.str "public") 7
  exact ⟨(h.2.1 staleChannel (by decide)).2 (by decide),
         h.2.2.1 staleChannel (by decide)⟩

/-- Helper: linking a genre never touches the `programs` table. -/
lemma add_genre_programs_eq (db : DB) (pid : Nat) (g : String) :
    (add_genre_to_program db pid g).programs = db.programs := by
  unfold add_genre_to_program linkGenre
  cases db.genres.find? (fun x => x.name = g) <;> dsimp <;> split <;> rfl

/-- Helper: linking a person never touches the `programs` table. -/
lemma add_person_programs_eq (db : DB) (pid : Nat) (nm rl : String) :
    (add_person_to_program db pid nm rl).programs = db.programs := by
  unfold add_person_to_program linkPerson
  cases db.people.find? (fun x => x.name = nm) <;> dsimp <;> split <;> rfl

/-- Helper: the genre-linking loop of `insert_program` leaves `programs`
unchanged. -/
lemma foldl_genres_programs_eq (pid : Nat) :
    ∀ (gs : List String) (d : DB),
      (gs.foldl (fun d g => add_genre_to_program d pid g) d).programs = d.programs := by
  intro gs
  induction gs with
  | nil => intro d; rfl
  | cons g rest ih =>
    intro d
    rw [List.foldl_cons, ih, add_genre_programs_eq]

/-- Helper: the person-linking loop of `insert_program` leaves `programs`
unchanged. -/
lemma foldl_people_programs_eq (pid : Nat) :
    ∀ (ps : List (String × String)) (d : DB),
      (ps.foldl (fun d p => add_person_to_program d pid p.1 p.2) d).programs = d.programs := by
  intro ps
  induction ps with
  | nil => intro d; rfl
  | cons p rest ih =>
    intro d
    rw [List.foldl_cons, ih, add_person_programs_eq]

/-- Claim C1: `insert_program` is an idempotent upsert on the external
ID.  Inserting a record whose (non-`NULL`) external ID is already stored
changes nothing at all — the existing row keeps every field value, no
fact row is added — and returns `False` ("already exists") instead of
raising; inserting a record with a fresh external ID and its `NOT NULL`
fields present returns `True` and appends exactly one fact row, built
from the record's fields, after the existing rows. -/
theorem insert_program_idempotent :
    (∀ (db : DB) (pd : ProgramData),
       pd.external_id ≠ .null →
       db.programs.any (fun r => r.external_id = pd.external_id) = true →
       insert_program db pd = (db, false)) ∧
    (∀ (db : DB) (pd : ProgramData),
       pd.channel_id ≠ .null → pd.title ≠ .null →
       pd.start_time ≠ .null → pd.end_time ≠ .null →
       (∀ r ∈ db.programs, r.external_id ≠ pd.external_id) →
       (insert_program db pd).2 = true ∧
       (insert_program db pd).1.programs =
         db.programs ++
           [⟨db.next_program_id, pd.external_id, pd.channel_id, pd.title, pd.description,
             pd.start_time, pd.end_time, pd.duration, pd.category, pd.is_series, pd.season,
             pd.episode, pd.episode_title, pd.age_rating, pd.image_url, pd.year, pd.country,
             pd.is_rerun⟩]) := by
  constructor
  · intro db pd hne hdup
    have hv : factInsertViolation db pd = true := by
      simp [factInsertViolation, hdup, hne]
    simp [insert_program, hv]
  · intro db pd hch ht hs he hfresh
    have hany : db.programs.any (fun r => r.external_id = pd.external_id) = false := by
      simp only [List.any_eq_false, decide_eq_true_eq]
      exact hfresh
    have hv : factInsertViolation db pd = false := by
      simp [factInsertViolation, hch, ht, hs, he, hany]
    constructor
    · simp [insert_program, hv]
    · simp only [insert_program, hv, Bool.false_eq_true, if_false]
      rw [foldl_people_programs_eq, foldl_genres_programs_eq]

/-- The valid program record of the module's own self-test, used to
witness C1. -/
def pdTest : ProgramData :=
  ⟨.str "test_001", .int 1, .str "Test Program", .str "This is a test program",
   .str "2025-06-15T20:00:00", .str "2025-06-15T21:00:00", .int 60, .str "Test",
   .bool false, .null, .null, .null, .null, .null, .null, .null, .bool false,
   ["Drama", "Comedy"], [("Test Actor", "actor"), ("Test Director", "director")]⟩

/-- Witness for C1: the first insert of `pdTest` into an empty store
returns `True` and stores one row; re-inserting the identical record
returns `False` and leaves the store exactly as it was. -/
theorem insert_program_idempotent_witness :
    (insert_program DB.empty pdTest).2 = true ∧
    (insert_program DB.empty pdTest).1.programs =
      DB.empty.programs ++
        [⟨DB.empty.next_program_id, pdTest.external_id, pdTest.channel_id, pdTest.title,
          pdTest.description, pdTest.start_time, pdTest.end_time, pdTest.duration,
          pdTest.category, pdTest.is_series, pdTest.season, pdTest.episode,
          pdTest.episode_title, pdTest.age_rating, pdTest.image_url, pdTest.year,
          pdTest.country, pdTest.is_rerun⟩] ∧
    insert_program (insert_program DB.empty pdTest).1 pdTest =
      ((insert_program DB.empty pdTest).1, false) := by
  have h1 := insert_program_idempotent.2 DB.empty pdTest (by decide) (by decide) (by decide)
    (by decide) (by intro r hr; simp [DB.empty] at hr)
  have h2 := insert_program_idempotent.1 (insert_program DB.empty pdTest).1 pdTest
    (by decide) (by decide)
  exact ⟨h1.1, h1.2, h2⟩

/-- Claim C10: every condition that makes the fact-row `INSERT` raise
`sqlite3.IntegrityError` — a `NULL` in one of the `NOT NULL` columns
`channel_id`, `title`, `start_time`, `end_time`, or a duplicate
non-`NULL` external ID — makes `insert_program` return `False` (the same
value that signals "already exists") with the database completely
unchanged: no fact row and no genre/person link rows are committed for
that record. -/
theorem insert_program_integrity_error (db : DB) (pd : ProgramData)
    (h : pd.channel_id = .null ∨ pd.title = .null ∨ pd.start_time = .null ∨
         pd.end_time = .null ∨
         (pd.external_id ≠ .null ∧
           db.programs.any (fun r => r.external_id = pd.external_id) = true)) :
    insert_program db pd = (db, false) := by
  have hv : factInsertViolation db pd = true := by
    rcases h with h | h | h | h | ⟨h1, h2⟩ <;> simp [factInsertViolation, *]
  simp [insert_program, hv]

/-- Witness for C10: a record with a `NULL` title (a `NOT NULL` violation
that is not a duplicate external ID) is rejected with `False` and leaves
the empty store empty. -/
theorem insert_program_integrity_error_witness :
    insert_program DB.empty { pdTest with title := .null, external_id := .str "other" } =
      (DB.empty, false) := by
  exact insert_program_integrity_error DB.empty _ (Or.inr (Or.inl rfl))

/-- Helper: adding an unseen genre name creates one lookup row and one
link row. -/
lemma add_genre_eq_new (db : DB) (pid : Nat) (nm : String)
    (hfind : db.genres.find? (fun x => x.name = nm) = none)
    (hany : db.program_genres.any
      (fun l => l.program_id = pid ∧ l.genre_id = db.next_genre_id) = false) :
    add_genre_to_program db pid nm =
      { db with genres := db.genres ++ [⟨db.next_genre_id, nm⟩],
                next_genre_id := db.next_genre_id + 1,
                program_genres := db.program_genres ++ [⟨pid, db.next_genre_id⟩] } := by
  unfold add_genre_to_program
  rw [hfind]
  unfold linkGenre
  simp only [hany]
  rfl

/-- Helper: a known genre name with its link already present is a
complete no-op. -/
lemma add_genre_eq_noop (db : DB) (pid : Nat) (nm : String) (g : GenreRow)
    (hfind : db.genres.find? (fun x => x.name = nm) = some g)
    (hany : db.program_genres.any
      (fun l => l.program_id = pid ∧ l.genre_id = g.id) = true) :
    add_genre_to_program db pid nm = db := by
  unfold add_genre_to_program
  rw [hfind]
  unfold linkGenre
  simp only [hany]
  rfl

/-- Helper: a known genre name linked to a new program adds only the link
row. -/
lemma add_genre_eq_link (db : DB) (pid : Nat) (nm : String) (g : GenreRow)
    (hfind : db.genres.find? (fun x => x.name = nm) = some g)
    (hany : db.program_genres.any
      (fun l => l.program_id = pid ∧ l.genre_id = g.id) = false) :
    add_genre_to_program db pid nm =
      { db with program_genres := db.program_genres ++ [⟨pid, g.id⟩] } := by
  unfold add_genre_to_program
  rw [hfind]
  unfold linkGenre
  simp only [hany]
  rfl

/-- Helper: adding an unseen person name creates one lookup row and one
link row. -/
lemma add_person_eq_new (db : DB) (pid : Nat) (nm rl : String)
    (hfind : db.people.find? (fun x => x.name = nm) = none)
    (hany : db.program_people.any
      (fun l => l.program_id = pid ∧ l.person_id = db.next_person_id ∧ l.role = rl) = false) :
    add_person_to_program db pid nm rl =
      { db with people := db.people ++ [⟨db.next_person_id, nm⟩],
                next_person_id := db.next_person_id + 1,
                program_people := db.program_people ++ [⟨pid, db.next_person_id, rl⟩] } := by
  unfold add_person_to_program
  rw [hfind]
  unfold linkPerson
  simp only [hany]
  rfl

/-- Helper: a known person name with its `(program, person, role)` link
already present is a complete no-op. -/
lemma add_person_eq_noop (db : DB) (pid : Nat) (nm rl : String) (g : PersonRow)
    (hfind : db.people.find? (fun x => x.name = nm) = some g)
    (hany : db.program_people.any
      (fun l => l.program_id = pid ∧ l.person_id = g.id ∧ l.role = rl) = true) :
    add_person_to_program db pid nm rl = db := by
  unfold add_person_to_program
  rw [hfind]
  unfold linkPerson
  simp only [hany]
  rfl

/-- Helper: a known person name linked to a new program adds only the
link row. -/
lemma add_person_eq_link (db : DB) (pid : Nat) (nm rl : String) (g : PersonRow)
    (hfind : db.people.find? (fun x => x.name = nm) = some g)
    (hany : db.program_people.any
      (fun l => l.program_id = pid ∧ l.person_id = g.id ∧ l.role = rl) = false) :
    add_person_to_program db pid nm rl =
      { db with program_people := db.program_people ++ [⟨pid, g.id, rl⟩] } := by
  unfold add_person_to_program
  rw [hfind]
  unfold linkPerson
  simp only [hany]
  rfl

/-- Claim C7: get-or-create with idempotent linking.  Registering a genre
name unseen so far (and a person name, with a role) against two different
programs leaves exactly one lookup row carrying that name — names are
compared by exact, case-sensitive equality — and appends exactly one link
row per `(program, genre)` (resp. `(program, person, role)`) pair; and
repeating an identical link attempt is a complete no-op, neither raising
nor duplicating anything. -/
theorem genre_person_lookup_dedup (db : DB) (nm pnm rl : String) (p1 p2 : Nat)
    (hpq : p1 ≠ p2)
    (hg : db.genres.find? (fun x => x.name = nm) = none)
    (hgl : ∀ l ∈ db.program_genres, l.genre_id ≠ db.next_genre_id)
    (hp : db.people.find? (fun x => x.name = pnm) = none)
    (hpl : ∀ l ∈ db.program_people, l.person_id ≠ db.next_person_id) :
    (add_genre_to_program (add_genre_to_program db p1 nm) p2 nm).genres =
      db.genres ++ [⟨db.next_genre_id, nm⟩] ∧
    ((add_genre_to_program (add_genre_to_program db p1 nm) p2 nm).genres.filter
      (fun x => x.name = nm)).length = 1 ∧
    (add_genre_to_program (add_genre_to_program db p1 nm) p2 nm).program_genres =
      db.program_genres ++ [⟨p1, db.next_genre_id⟩] ++ [⟨p2, db.next_genre_id⟩] ∧
    add_genre_to_program (add_genre_to_program (add_genre_to_program db p1 nm) p2 nm) p2 nm =
      add_genre_to_program (add_genre_to_program db p1 nm) p2 nm ∧
    (add_person_to_program (add_person_to_program db p1 pnm rl) p2 pnm rl).people =
      db.people ++ [⟨db.next_person_id, pnm⟩] ∧
    ((add_person_to_program (add_person_to_program db p1 pnm rl) p2 pnm rl).people.filter
      (fun x => x.name = pnm)).length = 1 ∧
    (add_person_to_program (add_person_to_program db p1 pnm rl) p2 pnm rl).program_people =
      db.program_people ++ [⟨p1, db.next_person_id, rl⟩] ++ [⟨p2, db.next_person_id, rl⟩] ∧
    add_person_to_program
        (add_person_to_program (add_person_to_program db p1 pnm rl) p2 pnm rl) p2 pnm rl =
      add_person_to_program (add_person_to_program db p1 pnm rl) p2 pnm rl := by
  have hany1 : db.program_genres.any
      (fun l => l.program_id = p1 ∧ l.genre_id = db.next_genre_id) = false := by
    simp only [List.any_eq_false, decide_eq_true_eq]
    exact fun l hl h => hgl l hl h.2
  have e1 := add_genre_eq_new db p1 nm hg hany1
  have hfind1 : (db.genres ++ [(⟨db.next_genre_id, nm⟩ : GenreRow)]).find?
      (fun x => x.name = nm) = some ⟨db.next_genre_id, nm⟩ := by
    rw [List.find?_append, hg]
    simp
  have hany2 : (db.program_genres ++ [(⟨p1, db.next_genre_id⟩ : ProgramGenreRow)]).any
      (fun l => l.program_id = p2 ∧ l.genre_id = db.next_genre_id) = false := by
    simp only [List.any_append, Bool.or_eq_false_iff]
    refine ⟨?_, by simp [hpq]⟩
    simp only [List.any_eq_false, decide_eq_true_eq]
    exact fun l hl h => hgl l hl h.2
  have e2 : add_genre_to_program (add_genre_to_program db p1 nm) p2 nm =
      { db with genres := db.genres ++ [⟨db.next_genre_id, nm⟩],
                next_genre_id := db.next_genre_id + 1,
                program_genres :=
                  db.program_genres ++ [⟨p1, db.next_genre_id⟩] ++ [⟨p2, db.next_genre_id⟩] } := by
    rw [e1, add_genre_eq_link _ p2 nm ⟨db.next_genre_id, nm⟩ hfind1 hany2]
  have hfilter : db.genres.filter (fun x => x.name = nm) = [] := by
    rw [List.filter_eq_nil_iff]
    exact List.find?_eq_none.mp hg
  have hany3 : (db.program_genres ++ [(⟨p1, db.next_genre_id⟩ : ProgramGenreRow)] ++
      [(⟨p2, db.next_genre_id⟩ : ProgramGenreRow)]).any
      (fun l => l.program_id = p2 ∧ l.genre_id = db.next_genre_id) = true := by
    simp [List.any_append]
  have hanyp1 : db.program_people.any
      (fun l => l.program_id = p1 ∧ l.person_id = db.next_person_id ∧ l.role = rl) = false := by
    simp only [List.any_eq_false, decide_eq_true_eq]
    exact fun l hl h => hpl l hl h.2.1
  have ep1 := add_person_eq_new db p1 pnm rl hp hanyp1
  have hfindp1 : (db.people ++ [(⟨db.next_person_id, pnm⟩ : PersonRow)]).find?
      (fun x => x.name = pnm) = some ⟨db.next_person_id, pnm⟩ := by
    rw [List.find?_append, hp]
    simp
  have hanyp2 : (db.program_people ++ [(⟨p1, db.next_person_id, rl⟩ : ProgramPersonRow)]).any
      (fun l => l.program_id = p2 ∧ l.person_id = db.next_person_id ∧ l.role = rl) = false := by
    simp only [List.any_append, Bool.or_eq_false_iff]
    refine ⟨?_, by simp [hpq]⟩
    simp only [List.any_eq_false, decide_eq_true_eq]
    exact fun l hl h => hpl l hl h.2.1
  have ep2 : add_person_to_program (add_person_to_program db p1 pnm rl) p2 pnm rl =
      { db with people := db.people ++ [⟨db.next_person_id, pnm⟩],
                next_person_id := db.next_person_id + 1,
                program_people :=
                  db.program_people ++ [⟨p1, db.next_person_id, rl⟩] ++
                    [⟨p2, db.next_person_id, rl⟩] } := by
    rw [ep1, add_person_eq_link _ p2 pnm rl ⟨db.next_person_id, pnm⟩ hfindp1 hanyp2]
  have hfilterp : db.people.filter (fun x => x.name = pnm) = [] := by
    rw [List.filter_eq_nil_iff]
    exact List.find?_eq_none.mp hp
  have hanyp3 : (db.program_people ++ [(⟨p1, db.next_person_id, rl⟩ : ProgramPersonRow)] ++
      [(⟨p2, db.next_person_id, rl⟩ : ProgramPersonRow)]).any
      (fun l => l.program_id = p2 ∧ l.person_id = db.next_person_id ∧ l.role = rl) = true := by
    simp [List.any_append]
  refine ⟨by rw [e2], ?_, by rw [e2], ?_, by rw [ep2], ?_, by rw [ep2], ?_⟩
  · rw [e2]
    simp [List.filter_append, hfilter]
  · rw [e2, add_genre_eq_noop _ p2 nm ⟨db.next_genre_id, nm⟩ hfind1 hany3]
  · rw [ep2]
    simp [List.filter_append, hfilterp]
  · rw [ep2, add_person_eq_noop _ p2 pnm rl ⟨db.next_person_id, pnm⟩ hfindp1 hanyp3]

/-- Witness for C7: the genre `Drama` and the person `Test Actor` (role
`actor`) registered against programs 1 and 2 of the empty store. -/
theorem genre_person_lookup_dedup_witness :
    (add_genre_to_program (add_genre_to_program DB.empty 1 "Drama") 2 "Drama").genres =
      DB.empty.genres ++ [⟨DB.empty.next_genre_id, "Drama"⟩] ∧
    ((add_genre_to_program (add_genre_to_program DB.empty 1 "Drama") 2 "Drama").genres.filter
      (fun x => x.name = "Drama")).length = 1 ∧
    (add_person_to_program (add_person_to_program DB.empty 1 "Test Actor" "actor") 2
        "Test Actor" "actor").program_people =
      DB.empty.program_people ++ [⟨1, DB.empty.next_person_id, "actor"⟩] ++
        [⟨2, DB.empty.next_person_id, "actor"⟩] ∧
    add_genre_to_program
        (add_genre_to_program (add_genre_to_program DB.empty 1 "Drama") 2 "Drama") 2 "Drama" =
      add_genre_to_program (add_genre_to_program DB.empty 1 "Drama") 2 "Drama" := by
  have h := genre_person_lookup_dedup DB.empty "Drama" "Test Actor" "actor" 1 2
    (by decide) (by decide) (by intro l hl; simp [DB.empty] at hl)
    (by decide) (by intro l hl; simp [DB.empty] at hl)
  exact ⟨h.1, h.2.1, h.2.2.2.2.2.2.1, h.2.2.2.1⟩

end TV
